import Mathlib

/-!
Verification of the `reach` behavioural-training sequencer.

This file gives a shallow embedding of the parts of `reach/session.py` and
`reach/raspberry.py` that the specification talks about, and proves or
refutes the specification's claims about them.

Conventions of the embedding:
* All wall-clock timepoints and durations are modelled as `Int`, in
  milliseconds (the Python code uses epoch-second floats; only ordering,
  pairing and arithmetic differences matter to the claims).
* The session data dictionary is modelled where a claim needs it: either as
  its list of keys (for claims about which fields exist) or as explicit
  record fields (for claims about the values).
* Asynchronous GPIO callbacks are modelled as explicit events delivered to
  the state-transformer that the corresponding Python callback denotes.
-/

namespace Reach

/-! ### List helpers used throughout the embedding -/

/-- Append one element to the sublist at index `i`
(Python `lst[i].append(x)`); out-of-range indices leave the list unchanged
(every use in this file is in range). -/
def appendAt : List (List Int) → Nat → Int → List (List Int)
  | [], _, _ => []
  | l :: ls, 0, t => (l ++ [t]) :: ls
  | l :: ls, n + 1, t => l :: appendAt ls n t

/-- Extend the sublist at index `i` with several elements
(Python `lst[i].extend(xs)`). -/
def extendAt : List (List Int) → Nat → List Int → List (List Int)
  | [], _, _ => []
  | l :: ls, 0, ts => (l ++ ts) :: ls
  | l :: ls, n + 1, ts => l :: extendAt ls n ts

/-- Record a key in a model of a Python dict's key set
(`data[k] = v` adds `k` if absent, else leaves the key set unchanged). -/
def insertKey (keys : List String) (k : String) : List String :=
  if k ∈ keys then keys else keys ++ [k]

/-- Length of the sublist at index `i` (0 when out of range). -/
def lenAt (l : List (List Int)) (i : Nat) : Nat :=
  ((l.get? i).getD []).length

/-! ### Pin table (`raspberry.py` `_PIN_NUMBERS`) -/

/-- Pin numbers of one spout's cue light, touch sensor and solenoid
(`raspberry.py:28`, `_PIN_NUMBERS['spouts']`). -/
structure SpoutPins where
  cue : Nat
  touch : Nat
  solenoid : Nat
deriving DecidableEq, Repr

/-- `_PIN_NUMBERS['buttons']` (`raspberry.py:29`). -/
def buttonPins : List Nat := [4, 13]

/-- `_PIN_NUMBERS['paw_sensors']` (`raspberry.py:30`). -/
def pawPins : List Nat := [17, 18]

/-- `_PIN_NUMBERS['spouts']` (`raspberry.py:31`). -/
def pinSpouts : List SpoutPins := [⟨5, 27, 25⟩, ⟨22, 23, 24⟩]

/-! ### Configuration (`session.py` `Session.run`'s `config` argument) -/

/-- The training configuration mapping consumed by `Session.run`
(spec section 6; keys read in `session.py`). Times are in ms except
`duration` (seconds in the source; units are irrelevant to the claims). -/
structure Config where
  spout_count : Nat
  duration : Int
  cue_duration_ms : Int
  iti_min : Int
  iti_max : Int
  reward_duration_ms : Int
  shaping : Bool
deriving DecidableEq, Repr

/-- The keys that `data.update(config)` adds to the session data dict
(`session.py:89`). -/
def configKeys : List String :=
  ["spout_count", "duration", "cue_duration_ms", "iti",
   "reward_duration_ms", "shaping"]

/-! ### The pre-loop phase of `Session.run` (`session.py:75-115`)

`run` seeds the RNG, merges the config into `self.data`, checks for a
pre-existing `resets_timepoints` key (on which it merely *constructs*
`SystemError('Cancelling.')` without raising it, `session.py:93`),
initialises the spontaneous-reach and resets lists, constructs the
hardware backend `_RPi(data['spout_count'])` (whose constructor slices
the pin table, `self.spouts = _PIN_NUMBERS['spouts'][:spout_count]`,
`raspberry.py:84`, raising nothing for any count), waits for the start
signal, installs the SIGINT handler, and records start/end times.
No statement in this phase validates `spout_count` or `iti`, and no
`ConfigurationError` exists anywhere in the source. -/

/-- Observable result of the phase of `Session.run` before the trial loop. -/
structure RunInit where
  dataKeys : List String
  raised : Option String
  sysErrorConstructed : Bool
  backendConstructed : Bool
  backendSpouts : List SpoutPins
deriving DecidableEq, Repr

/-- The pre-loop phase of `Session.run`, statement by statement
(`session.py:86-115`). -/
def runConfigPhase (keys0 : List String) (cfg : Config) : RunInit :=
  let keys := configKeys.foldl insertKey keys0
  let sysErr := decide ("resets_timepoints" ∈ keys)
  let keys := insertKey keys "spont_reach_timepoints"
  let keys := insertKey keys "resets_timepoints"
  let spouts := pinSpouts.take cfg.spout_count
  let keys := insertKey keys "start_time"
  let keys := insertKey keys "end_time"
  { dataKeys := keys
    raised := none
    sysErrorConstructed := sysErr
    backendConstructed := true
    backendSpouts := spouts }

/-! ### Trial state and the outcome callbacks (`session.py:238-307`)

`Session._outcome` is a plain integer: 0 pending/missed, 1 rewarded,
2 incorrect (`session.py:45,119,264-274,288,307`). The two grasp
callbacks assign to it unconditionally. -/

/-- The session and hardware state that a trial reads and mutates. -/
structure TrialState where
  outcome : Nat
  spout_count : Nat
  current_spout : Nat
  reward_duration_ms : Int
  water_at_cue_onset : Bool
  cue_timepoints : List (List Int)
  touch_timepoints : List (List Int)
  lift_timepoints : List (List Int)
  dispensed : List (Nat × Int)
  reward_count : Nat
deriving DecidableEq, Repr

/-- `Session._reward_callback` (`session.py:276-293`): calls
`successful_grasp` (which appends a touch timepoint on the *target*
spout, `raspberry.py:268-280`), assigns `_outcome = 1`, and dispenses
water unless shaping already dispensed it at cue onset. -/
def rewardCallback (st : TrialState) (now : Int) : TrialState :=
  let st :=
    { st with touch_timepoints :=
        appendAt st.touch_timepoints st.current_spout now }
  let st := { st with outcome := 1 }
  if st.water_at_cue_onset then st
  else
    { st with dispensed :=
        st.dispensed ++ [(st.current_spout, st.reward_duration_ms)] }

/-- `Session._incorrect_grasp_callback` (`session.py:295-307`): calls
`incorrect_grasp` (which appends a touch timepoint on the *other*
spout, `raspberry.py:282-294`) and assigns `_outcome = 2`. -/
def incorrectGraspCallback (st : TrialState) (now : Int) : TrialState :=
  let st :=
    { st with touch_timepoints :=
        appendAt st.touch_timepoints (1 - st.current_spout) now }
  { st with outcome := 2 }

/-- One invocation of a grasp callback during a trial. -/
inductive CbEvent
  | reward (t : Int)
  | incorrect (t : Int)
deriving DecidableEq, Repr

/-- Dispatch one callback invocation. -/
def applyCb (st : TrialState) : CbEvent → TrialState
  | .reward t => rewardCallback st t
  | .incorrect t => incorrectGraspCallback st t

/-- A sequence of callback invocations, in the order the GPIO event
system runs them. -/
def applyCbs (st : TrialState) (es : List CbEvent) : TrialState :=
  es.foldl applyCb st

/-- The outcome value each callback assigns (`session.py:288,307`). -/
def cbOutcome : CbEvent → Nat
  | .reward _ => 1
  | .incorrect _ => 2

/-! ### The trial (`session.py:238-274` with `raspberry.py:209-253`)

`RPiReal.start_trial` records a cue timepoint on the target spout, arms
paw-lift detection, arms the reward callback on the target spout's touch
sensor, and arms the incorrect callback only when `len(self.spouts) > 1`
(`raspberry.py:247`). The trial's poll loop then runs until the outcome
variable is non-zero or the cue deadline passes; the events delivered
before that point are the model's input list. `end_trial` is then called,
and the final `if/elif/else` on the outcome selects the post-trial sleep
(`reward_duration_ms` worth of sleep for outcomes 1 and 2, none for 0). -/

/-- A sensor edge that can fire during the cue window. -/
inductive TrialEvent
  | touchTarget (t : Int)
  | touchOther (t : Int)
  | pawLift (paw : Nat) (t : Int)
deriving DecidableEq, Repr

/-- Whether `start_trial` armed the incorrect-grasp callback:
`raspberry.py:247`, `if len(self.spouts) > 1`. -/
def incorrectArmed (spout_count : Nat) : Bool := 1 < spout_count

/-- Deliver one sensor edge to whatever callback `start_trial` armed for
it; an edge on the non-target spout's sensor is dropped when that
callback was never registered. -/
def fireTrialEvent (st : TrialState) : TrialEvent → TrialState
  | .touchTarget t => rewardCallback st t
  | .touchOther t =>
      if incorrectArmed st.spout_count then incorrectGraspCallback st t
      else st
  | .pawLift paw t =>
      { st with lift_timepoints := appendAt st.lift_timepoints paw t }

/-- Calls the trial makes into the hardware layer. -/
inductive HwCall
  | startTrial
  | dispense (spout : Nat)
  | endTrial
deriving DecidableEq, Repr

/-- Result of one `Session._trial` run. `delay_ms` is the post-trial
sleep (the source sleeps `reward_duration_ms / 1000` seconds,
i.e. `reward_duration_ms` milliseconds). -/
structure TrialResult where
  st : TrialState
  log : List HwCall
  delay_ms : Int
deriving DecidableEq, Repr

/-- `Session._trial` (`session.py:238-274`): `start_trial`, optional
shaping dispense, the cue-window events, `end_trial`, then the outcome
branch (reward counting and post-trial sleep). -/
def trialModel (st0 : TrialState) (cueTime : Int) (events : List TrialEvent) :
    TrialResult :=
  let st :=
    { st0 with cue_timepoints :=
        appendAt st0.cue_timepoints st0.current_spout cueTime }
  let log := [HwCall.startTrial]
  let (st, log) :=
    if st.water_at_cue_onset then
      ({ st with dispensed :=
           st.dispensed ++ [(st.current_spout, st.reward_duration_ms)] },
       log ++ [HwCall.dispense st.current_spout])
    else (st, log)
  let st := events.foldl fireTrialEvent st
  let log := log ++ [HwCall.endTrial]
  if st.outcome = 1 then
    ({ st := { st with reward_count := st.reward_count + 1 }
       log := log
       delay_ms := st.reward_duration_ms } : TrialResult)
  else if st.outcome = 2 then
    { st := st, log := log, delay_ms := st.reward_duration_ms }
  else
    { st := st, log := log, delay_ms := 0 }

/-! ### The inter-trial interval (`session.py:155-207`)

`_inter_trial_interval` registers the sensors, then loops: wait for
rest, clear the broken flag, draw `random.uniform(*iti)` and count it
down, restarting whenever `_reset_iti_callback` set the broken flag
(that callback also appends one timepoint to
`resets_timepoints[paw_pins.index(pin)]`). Only when a full drawn
duration elapses unbroken does the loop exit, after which
`disable_sensors` is called once. Each restart redraws the duration.
One countdown attempt is modelled as an `ItiRound`: the drawn duration
and, if the countdown was broken, the lifting paw and the lift time. -/

/-- One pass of `_inter_trial_interval`'s outer `while True` loop. -/
structure ItiRound where
  draw : Int
  brk : Option (Nat × Int)
deriving DecidableEq, Repr

/-- The mutable state the ITI touches. -/
structure ItiState where
  resets_timepoints : List (List Int)
  iti_broken : Bool
deriving DecidableEq, Repr

/-- `Session._reset_iti_callback` (`session.py:192-207`): sets the
broken flag and appends one timepoint indexed by the lifting paw. -/
def resetItiCallback (st : ItiState) (paw : Nat) (t : Int) : ItiState :=
  { iti_broken := true
    resets_timepoints := appendAt st.resets_timepoints paw t }

/-- Result of `_inter_trial_interval` once it exits. -/
structure ItiOut where
  resets_timepoints : List (List Int)
  disableCalls : Nat
  finalDraw : Int
deriving DecidableEq, Repr

/-- The `while True` loop of `_inter_trial_interval`
(`session.py:172-190`): a broken countdown runs the reset callback and
continues; an unbroken one exits the loop, after which `disable_sensors`
runs exactly once. `none` means every supplied round broke and the code
is still looping. -/
def itiLoop : ItiState → List ItiRound → Option ItiOut
  | _, [] => none
  | st, r :: rest =>
    let st := { st with iti_broken := false }
    match r.brk with
    | some (paw, t) => itiLoop (resetItiCallback st paw t) rest
    | none =>
        some { resets_timepoints := st.resets_timepoints
               disableCalls := 1
               finalDraw := r.draw }

/-- How many of the rounds before the first unbroken one were broken by
paw `paw` (each such break appends one reset timepoint for that paw). -/
def breaksBefore (paw : Nat) : List ItiRound → Nat
  | [] => 0
  | r :: rest =>
    match r.brk with
    | some (p, _) => (if p = paw then 1 else 0) + breaksBefore paw rest
    | none => 0

/-! ### The session loop and session end (`session.py:117-132,309-341`)

`Session.run`'s trial loop runs `while now < data['end_time']`, each
iteration doing an ITI then a trial, and calls `_end_session()` when
the loop exits. `_end_session` (`session.py:326-341`) calls
`self._rpi.cleanup()`, then `_collate_data`, then
`_display_training_results` — in that order, once per call.

A Ctrl-C during the session runs `_end_session_manually`
(`session.py:309-324`), which calls `_end_session(manual=True)` from
the signal handler and *returns*: the interrupted iteration then resumes
and completes (Python resumes the interrupted sleep). Under
`manual=True`, `_collate_data` overwrites `data['end_time']` with a
`time.strftime('%H:%M:%S', ...)` *string* (`session.py:390`), so the
next evaluation of the loop condition `now < data['end_time']` compares
a float with a str and raises `TypeError`: the loop never finishes
normally after an abort and `_end_session` is never reached a second
time. The model tracks whether `end_time` has been turned into a string
and the abort point as the index of the iteration the signal lands in
(post-abort continuation follows the mock backend, whose hardware calls
cannot fail). -/

/-- Calls made by `Session.run`'s loop and by `_end_session`. -/
inductive SessCall
  | iti
  | trial
  | cleanup
  | collate
  | display
deriving DecidableEq, Repr

/-- How `Session.run` terminates. -/
inductive RunExit
  | completed
  | typeError
deriving DecidableEq, Repr

/-- `Session._end_session` (`session.py:326-341`): backend cleanup, then
data collation, then the results display. -/
def endSessionCalls : List SessCall := [.cleanup, .collate, .display]

/-- The trial loop of `Session.run` (`session.py:117-132`) plus the
SIGINT path. Arguments: iterations the wall clock still allows, the
iteration the abort signal lands in (counted from the current one),
and whether `data['end_time']` has already been replaced by a string
(true only after a manual `_collate_data`). -/
def runLoop : Nat → Option Nat → Bool → List SessCall × RunExit
  | n, ab, endStr =>
    if endStr then ([], .typeError)
    else
      match n, ab with
      | 0, _ => (endSessionCalls, .completed)
      | n + 1, some 0 =>
          let rest := runLoop n none true
          (SessCall.iti :: endSessionCalls ++ SessCall.trial :: rest.1,
           rest.2)
      | n + 1, some (k + 1) =>
          let rest := runLoop n (some k) false
          (SessCall.iti :: SessCall.trial :: rest.1, rest.2)
      | n + 1, none =>
          let rest := runLoop n none false
          (SessCall.iti :: SessCall.trial :: rest.1, rest.2)

/-- `Session.run`'s trial loop and session end: `trials` is the number
of iterations the wall clock allows, `abortAt = some k` delivers the
manual-abort signal during iteration `k`. -/
def runModel (trials : Nat) (abortAt : Option Nat) :
    List SessCall × RunExit :=
  runLoop trials abortAt false

/-- Is this call a backend `cleanup` or a `_collate_data` call? -/
def isCleanupOrCollate (c : SessCall) : Bool :=
  c = SessCall.cleanup ∨ c = SessCall.collate

/-! ### Data collation (`session.py:343-392`) and the results display
(`session.py:394-423`) -/

/-- A spout record owned by the hardware layer (`raspberry.py`:
`spout['cue_timepoints']`, `spout['touch_timepoints']`,
`spout['touch']`). -/
structure SpoutRecord where
  touchPin : Nat
  cue_timepoints : List Int
  touch_timepoints : List Int
deriving DecidableEq, Repr

/-- `lambda x: idx if x == spout['touch'] else x` mapped over
`self.spont_reach_spouts` (`session.py:367-370`). -/
def remapSpont (touchPin idx : Nat) (xs : List Nat) : List Nat :=
  xs.map fun x => if x = touchPin then idx else x

/-- The body of `_collate_data`'s per-spout loop restricted to the
spontaneous-reach bookkeeping (`session.py:365-377`). The list
comprehension filter is the literal `if idx` of the source — the Python
truthiness of the loop index, not a test on the remapped spout tag `a` —
so it keeps every pair when `idx ≠ 0` and none when `idx = 0`. -/
def collateSpontLoop :
    Nat → List SpoutRecord → List Nat → List Int → List (List Int) →
      List Nat × List (List Int)
  | _, [], xs, _, acc => (xs, acc)
  | idx, sp :: rest, xs, tps, acc =>
    let xs := remapSpont sp.touchPin idx xs
    let acc :=
      extendAt acc idx
        ((xs.zip tps).filterMap fun ab =>
          if idx ≠ 0 then some ab.2 else none)
    collateSpontLoop (idx + 1) rest xs tps acc

/-- The per-spout reorganisation of spontaneous-reach timepoints done by
`_collate_data` (`session.py:363-377,382`), starting from the fresh
`[[], []]` accumulator. -/
def collateSpontReaches (spouts : List SpoutRecord) (spontSpouts : List Nat)
    (tps : List Int) : List (List Int) :=
  (collateSpontLoop 0 spouts spontSpouts tps [[], []]).2

/-- The collated session data produced by `_collate_data`
(`session.py:343-392`): the dict's final key set plus the fields the
claims inspect. -/
structure CollatedData where
  keys : List String
  cue_timepoints : List (List Int)
  touch_timepoints : List (List Int)
  spont_reach_timepoints : List (List Int)
  cued_lift_timepoints : List (List Int)
deriving DecidableEq, Repr

/-- `Session._collate_data` (`session.py:343-392`). `keysIn` is the data
dict's key set when the session ends (as produced by `runConfigPhase`);
the statements `data['cue_timepoints'] = []`,
`data['touch_timepoints'] = []`, the per-spout loop that appends each
spout's own lists to them, `data['spont_reach_timepoints'] = ...`,
`data['cued_lift_timepoints'] = ...`, `data['date'] = ...` and the
`strftime` reformatting of `start_time`/`end_time` are translated in
order. No statement writes a `reward_count` or `trial_count` key. -/
def collateData (keysIn : List String) (spouts : List SpoutRecord)
    (spontSpouts : List Nat) (spontTps : List Int)
    (lifts : List (List Int)) : CollatedData :=
  let keys := insertKey keysIn "cue_timepoints"
  let keys := insertKey keys "touch_timepoints"
  let spont := collateSpontReaches spouts spontSpouts spontTps
  let keys := insertKey keys "spont_reach_timepoints"
  let keys := insertKey keys "cued_lift_timepoints"
  let keys := insertKey keys "date"
  { keys := keys
    cue_timepoints := spouts.map (·.cue_timepoints)
    touch_timepoints := spouts.map (·.touch_timepoints)
    spont_reach_timepoints := spont
    cued_lift_timepoints := lifts }

/-- The trial count printed by `_display_training_results`
(`session.py:399`): `trial_count = len(data['cue_timepoints'])`. -/
def displayTrialCount (d : CollatedData) : Nat :=
  d.cue_timepoints.length

/-- The number of trials a session actually ran: every trial appends
exactly one cue timepoint to its target spout (`raspberry.py:229`), so
it is the total number of recorded cue onsets. -/
def trialsRun (spouts : List SpoutRecord) : Nat :=
  (spouts.map (·.cue_timepoints.length)).sum

/-! ### Reaction times (`session.py:433-453`) -/

/-- `Session.reaction_times` (`session.py:433-453`): flatten the
per-spout touch lists, flatten the per-spout cue lists, and
`map(operator.sub, touch_timepoints, cue_timepoints)` — an elementwise
subtraction truncated at the shorter list. -/
def reaction_times (touch cue : List (List Int)) : List Int :=
  let touch_timepoints := touch.flatten
  let cue_timepoints := cue.flatten
  List.zipWith (· - ·) touch_timepoints cue_timepoints

/-- Modelled from the spec: "for each spout, pairwise-subtract
chronologically matched cue-onset and touch timepoints;
undefined/absent for missed trials." Each touch is matched with the
most recent cue onset at or before it; a cue onset with no touch
(a missed trial) contributes nothing. -/
def reactionTimesSpec (touch cue : List (List Int)) : List Int :=
  ((touch.zip cue).map fun p =>
    p.1.filterMap fun t => ((p.2.filter (· ≤ t)).max?).map (t - ·)).flatten

/-- Per-spout positional pairwise subtraction: spout by spout, the i-th
touch minus the i-th cue onset. Used to state when `reaction_times`'
flattened subtraction is a per-spout pairing at all. -/
def reactionTimesPerSpout (touch cue : List (List Int)) : List Int :=
  ((touch.zip cue).map fun p => List.zipWith (· - ·) p.1 p.2).flatten

/-! ### GPIO pin model and `RPiReal.cleanup` (`raspberry.py:95-121,322-337`)

The `RPi.GPIO` library is modelled by its documented contract:
`GPIO.setup` gives a channel a direction (and an initial level for
outputs); `GPIO.output` drives a channel *only if it is currently set
up as an output*, and otherwise raises
`RuntimeError("The GPIO channel has not been set up as an OUTPUT")`;
`GPIO.cleanup()` resets every channel the program set up back to the
uninitialised (floating-input) state. Pin modes and levels are kept as
association lists keyed by pin number, most recent write first. -/

/-- Direction a GPIO channel was set up with. -/
inductive PinMode
  | uninit
  | inp
  | outp
deriving DecidableEq, Repr

/-- The state of the GPIO pins. -/
structure Gpio where
  modes : List (Nat × PinMode)
  levels : List (Nat × Bool)
deriving DecidableEq, Repr

/-- Current direction of a pin (`uninit` when never set up or after
`GPIO.cleanup()`). -/
def modeOf (g : Gpio) (p : Nat) : PinMode :=
  (g.modes.lookup p).getD .uninit

/-- Current level of a pin (`false` = safe OFF / floating). -/
def levelOf (g : Gpio) (p : Nat) : Bool :=
  (g.levels.lookup p).getD false

/-- `GPIO.setup(pin, direction, initial=...)`. -/
def gpioSetup (g : Gpio) (p : Nat) (m : PinMode) (initial : Bool) : Gpio :=
  { modes := (p, m) :: g.modes, levels := (p, initial) :: g.levels }

/-- The one failure the model needs: `RPi.GPIO` raises `RuntimeError`
when `GPIO.output` is applied to a channel not set up as an output. -/
inductive GpioError
  | channelNotSetup
deriving DecidableEq, Repr

/-- `GPIO.output(pin, value)`. -/
def gpioOutput (g : Gpio) (p : Nat) (v : Bool) : Except GpioError Gpio :=
  if modeOf g p = .outp then .ok { g with levels := (p, v) :: g.levels }
  else .error .channelNotSetup

/-- `GPIO.cleanup()`: every channel back to uninitialised/floating. -/
def gpioCleanupAll (_g : Gpio) : Gpio :=
  { modes := [], levels := [] }

/-- `RPiReal._initialise_pins` (`raspberry.py:95-121`): buttons and paw
sensors as inputs; for each spout the cue as output (initially off),
the touch sensor as input, the solenoid as output (initially off). -/
def initialisePins (spouts : List SpoutPins) (g : Gpio) : Gpio :=
  let g := buttonPins.foldl (fun g p => gpioSetup g p .inp false) g
  let g := pawPins.foldl (fun g p => gpioSetup g p .inp false) g
  spouts.foldl
    (fun g sp =>
      let g := gpioSetup g sp.cue .outp false
      let g := gpioSetup g sp.touch .inp false
      gpioSetup g sp.solenoid .outp false)
    g

/-- The `for spout in self.spouts: GPIO.output(spout['solenoid'], False)`
loop of `RPiReal.cleanup` (`raspberry.py:335-336`); the first failing
write propagates, as the uncaught Python exception would. -/
def outputSolenoidsOff : List SpoutPins → Gpio → Except GpioError Gpio
  | [], g => .ok g
  | sp :: rest, g =>
    match gpioOutput g sp.solenoid false with
    | .ok g => outputSolenoidsOff rest g
    | .error e => .error e

/-- `RPiReal.cleanup` (`raspberry.py:322-337`): drive every solenoid
low, then `GPIO.cleanup()`. -/
def rpiCleanup (spouts : List SpoutPins) (g : Gpio) :
    Except GpioError Gpio :=
  match outputSolenoidsOff spouts g with
  | .ok g => .ok (gpioCleanupAll g)
  | .error e => .error e

/-! ### Concrete states used by counterexamples and witnesses -/

/-- The paw index a round's break event names (0 when unbroken). -/
def brkPaw (r : ItiRound) : Nat :=
  (r.brk.map Prod.fst).getD 0

/-- A fresh two-spout trial state at the start of a trial (outcome
pending, nothing recorded yet, shaping off, target spout 0). -/
def cbTestState : TrialState :=
  { outcome := 0
    spout_count := 2
    current_spout := 0
    reward_duration_ms := 150
    water_at_cue_onset := false
    cue_timepoints := [[], []]
    touch_timepoints := [[], []]
    lift_timepoints := [[], []]
    dispensed := []
    reward_count := 0 }

/-- A fresh single-spout trial state at the start of a trial. -/
def oneSpoutState : TrialState :=
  { outcome := 0
    spout_count := 1
    current_spout := 0
    reward_duration_ms := 150
    water_at_cue_onset := false
    cue_timepoints := [[]]
    touch_timepoints := [[]]
    lift_timepoints := [[], []]
    dispensed := []
    reward_count := 0 }

/-! ## Helper lemmas -/

/-- `appendAt` never changes the outer length. -/
theorem appendAt_length (l : List (List Int)) (i : Nat) (t : Int) :
    (appendAt l i t).length = l.length := by
  induction l generalizing i with
  | nil => rfl
  | cons x xs ih =>
    cases i with
    | zero => rfl
    | succ n => simpa [appendAt] using ih n

/-- Appending at an in-range index grows exactly that sublist by one. -/
theorem lenAt_appendAt (l : List (List Int)) (p q : Nat) (t : Int)
    (hp : p < l.length) :
    lenAt (appendAt l p t) q =
      if q = p then lenAt l q + 1 else lenAt l q := by
  induction l generalizing p q with
  | nil => simp at hp
  | cons x xs ih =>
    cases p with
    | zero =>
      cases q with
      | zero => simp [appendAt, lenAt]
      | succ m => simp [appendAt, lenAt]
    | succ n =>
      cases q with
      | zero => simp [appendAt, lenAt]
      | succ m =>
        have hn : n < xs.length := by simpa using hp
        have := ih n m hn
        simpa [appendAt, lenAt, Nat.succ_inj] using this

/-- The reward callback always leaves outcome 1 (`session.py:288`). -/
theorem rewardCallback_outcome (st : TrialState) (t : Int) :
    (rewardCallback st t).outcome = 1 := by
  simp only [rewardCallback]
  split <;> rfl

/-- The incorrect-grasp callback always leaves outcome 2
(`session.py:307`). -/
theorem incorrectGraspCallback_outcome (st : TrialState) (t : Int) :
    (incorrectGraspCallback st t).outcome = 2 := rfl

/-! ## Claim C1 -/

/-- Claim C1, as stated, is false: on the configuration with
`spout_count = 3` and `iti = (500, 100)` (outside the claimed valid
set on both counts), the pre-loop phase of `Session.run` raises
nothing, constructs the hardware backend (silently truncated to the
two table spouts), and mutates the session data. -/
theorem c1_counterexample :
    (¬ ((3 : Nat) = 1 ∨ (3 : Nat) = 2)) ∧ (500 : Int) > 100 ∧
    (runConfigPhase [] ⟨3, 1800, 10000, 500, 100, 150, false⟩).raised
      = none ∧
    (runConfigPhase [] ⟨3, 1800, 10000, 500, 100, 150, false⟩).backendConstructed
      = true ∧
    "resets_timepoints" ∈
      (runConfigPhase [] ⟨3, 1800, 10000, 500, 100, 150, false⟩).dataKeys := by
  decide

/-- Claim C1 amended: `Session.run` performs no configuration
validation at all. For every configuration mapping — whatever its
`spout_count` or `iti` ordering — no error is raised before the trial
loop, the session data is updated with the config unconditionally, and
the backend is constructed, its spout list silently truncated to at
most the two spouts of the pin table. -/
theorem c1_amended (keys0 : List String) (cfg : Config) :
    (runConfigPhase keys0 cfg).raised = none ∧
    (runConfigPhase keys0 cfg).backendConstructed = true ∧
    (runConfigPhase keys0 cfg).backendSpouts.length
      = min cfg.spout_count 2 := by
  refine ⟨rfl, rfl, ?_⟩
  simp [runConfigPhase, pinSpouts]

/-! ## Claim C2 -/

/-- Claim C2, as stated, is false: the outcome variable is not
single-assignment. After the reward callback latches outcome 1, a later
invocation of the incorrect-grasp callback during the same trial is not
a no-op — it overwrites the outcome to 2 (and appends a further touch
timepoint). -/
theorem c2_counterexample :
    (rewardCallback cbTestState 100).outcome = 1 ∧
    (incorrectGraspCallback (rewardCallback cbTestState 100) 200).outcome
      = 2 ∧
    incorrectGraspCallback (rewardCallback cbTestState 100) 200
      ≠ rewardCallback cbTestState 100 := by
  decide

/-- Claim C2 amended: the outcome variable is last-writer-wins, not
first-writer-wins. Each invocation of the reward or incorrect-grasp
callback assigns the outcome unconditionally, so after any sequence of
callback invocations the outcome is the one assigned by the last
invocation; only if no callback ran does the deadline leave it
pending/missed. -/
theorem c2_amended (st : TrialState) (es : List CbEvent) (e : CbEvent)
    (h : es.getLast? = some e) :
    (applyCbs st es).outcome = cbOutcome e := by
  induction es generalizing st with
  | nil => simp at h
  | cons a rest ih =>
    cases rest with
    | nil =>
      simp [List.getLast?] at h
      subst h
      cases a with
      | reward t =>
          simpa [applyCbs, applyCb, cbOutcome] using
            rewardCallback_outcome st t
      | incorrect t =>
          simpa [applyCbs, applyCb, cbOutcome] using
            incorrectGraspCallback_outcome st t
    | cons b rest2 =>
      rw [List.getLast?_cons_cons] at h
      simpa [applyCbs, List.foldl_cons] using ih (applyCb st a) h

/-- Witness for the amended C2 at a concrete input: reward then
incorrect ends with the last writer's outcome, 2. -/
theorem c2_witness :
    ([CbEvent.reward 100, CbEvent.incorrect 200].getLast?
      = some (CbEvent.incorrect 200)) ∧
    (applyCbs cbTestState [CbEvent.reward 100, CbEvent.incorrect 200]).outcome
      = cbOutcome (CbEvent.incorrect 200) :=
  ⟨by decide, c2_amended cbTestState _ _ (by decide)⟩

/-! ## Claim C3 -/

/-- Once a manual `_collate_data` has replaced `end_time` by a
formatted string, the very next evaluation of the loop condition
`now < data['end_time']` is a float/str comparison and raises
TypeError, whatever iterations the wall clock would still allow. -/
theorem runLoop_true (n : Nat) (ab : Option Nat) :
    runLoop n ab true = ([], .typeError) := by
  rw [runLoop.eq_def]
  rfl

/-- Loop exit by the wall clock: `_end_session` runs. -/
theorem runModel_zero_none :
    runModel 0 none = (endSessionCalls, .completed) := rfl

/-- An abort-free iteration contributes an ITI and a trial. -/
theorem runModel_succ_none (n : Nat) :
    runModel (n + 1) none
      = (SessCall.iti :: SessCall.trial :: (runModel n none).1,
         (runModel n none).2) := rfl

/-- The iteration the abort lands in: the signal handler runs
`_end_session` mid-trial, the interrupted trial then completes, and the
loop resumes with `end_time` now a string. -/
theorem runModel_succ_abort_now (n : Nat) :
    runModel (n + 1) (some 0)
      = (SessCall.iti :: endSessionCalls ++ SessCall.trial ::
          (runLoop n none true).1,
         (runLoop n none true).2) := rfl

/-- An iteration before the abort arrives. -/
theorem runModel_succ_abort_later (n k : Nat) :
    runModel (n + 1) (some (k + 1))
      = (SessCall.iti :: SessCall.trial :: (runModel n (some k)).1,
         (runModel n (some k)).2) := rfl

/-- Claim C3 holds: whether the session ends by the wall clock
(`abortAt = none`) or by a manual abort landing in any iteration the
wall clock allows, the backend `cleanup` is invoked exactly once and
`_collate_data` exactly once, in that order, and an abort mid-trial
never reruns them when the interrupted trial finishes — after a manual
collation the loop condition compares the float `now` with the
reformatted string `end_time` and dies with a TypeError instead of
reaching `_end_session` again. -/
theorem c3_theorem (trials : Nat) (abortAt : Option Nat)
    (h : ∀ k, abortAt = some k → k < trials) :
    (runModel trials abortAt).1.filter isCleanupOrCollate
      = [SessCall.cleanup, SessCall.collate] ∧
    (abortAt = none → (runModel trials abortAt).2 = RunExit.completed) ∧
    (abortAt ≠ none → (runModel trials abortAt).2 = RunExit.typeError) := by
  induction trials generalizing abortAt with
  | zero =>
    cases abortAt with
    | none => exact ⟨by decide, fun _ => rfl, fun hn => absurd rfl hn⟩
    | some k => exact absurd (h k rfl) (Nat.not_lt_zero k)
  | succ n ih =>
    cases abortAt with
    | none =>
      have hih := ih none (fun k hk => by cases hk)
      refine ⟨?_, fun _ => ?_, fun hn => absurd rfl hn⟩
      · rw [runModel_succ_none]
        simpa [List.filter, isCleanupOrCollate] using hih.1
      · rw [runModel_succ_none]
        exact hih.2.1 rfl
    | some k =>
      cases k with
      | zero =>
        rw [runModel_succ_abort_now, runLoop_true]
        refine ⟨?_, ?_, ?_⟩
        · decide
        · intro hn
          exact nomatch hn
        · intro _
          rfl
      | succ k =>
        have hk : k < n := Nat.lt_of_succ_lt_succ (h (k + 1) rfl)
        have hih := ih (some k) (fun j hj => by cases hj; exact hk)
        rw [runModel_succ_abort_later]
        refine ⟨?_, ?_, ?_⟩
        · simpa [List.filter, isCleanupOrCollate] using hih.1
        · intro hn
          exact nomatch hn
        · intro _
          exact hih.2.2 (by simp)

/-- Witness for C3 at a concrete input: three allowed iterations with a
manual abort in the second. -/
theorem c3_witness :
    (∀ k, (some 1 : Option Nat) = some k → k < 3) ∧
    ((runModel 3 (some 1)).1.filter isCleanupOrCollate
      = [SessCall.cleanup, SessCall.collate] ∧
     ((some 1 : Option Nat) = none →
       (runModel 3 (some 1)).2 = RunExit.completed) ∧
     ((some 1 : Option Nat) ≠ none →
       (runModel 3 (some 1)).2 = RunExit.typeError)) :=
  ⟨fun k hk => by cases hk; decide,
   c3_theorem 3 (some 1) (fun k hk => by cases hk; decide)⟩

/-! ## Claim C4 -/

/-- Claim C4 fails on the code: after a session with one spout and three
trials run (three cue onsets recorded, one rewarded touch), the collated
record contains neither a `reward_count` nor a `trial_count` field, and
the training-result summary's trial count —
`len(data['cue_timepoints'])`, `session.py:399` — is the number of
spouts (1), not the number of trials run (3). -/
theorem c4_theorem :
    ("reward_count" ∉
      (collateData
        (runConfigPhase [] ⟨1, 1800, 10000, 500, 500, 150, false⟩).dataKeys
        [⟨27, [10, 20, 30], [15]⟩] [] [] [[], []]).keys) ∧
    ("trial_count" ∉
      (collateData
        (runConfigPhase [] ⟨1, 1800, 10000, 500, 500, 150, false⟩).dataKeys
        [⟨27, [10, 20, 30], [15]⟩] [] [] [[], []]).keys) ∧
    trialsRun [⟨27, [10, 20, 30], [15]⟩] = 3 ∧
    displayTrialCount
      (collateData
        (runConfigPhase [] ⟨1, 1800, 10000, 500, 500, 150, false⟩).dataKeys
        [⟨27, [10, 20, 30], [15]⟩] [] [] [[], []]) = 1 ∧
    displayTrialCount
      (collateData
        (runConfigPhase [] ⟨1, 1800, 10000, 500, 500, 150, false⟩).dataKeys
        [⟨27, [10, 20, 30], [15]⟩] [] [] [[], []])
      ≠ trialsRun [⟨27, [10, 20, 30], [15]⟩] := by
  decide

/-! ## Claim C5 -/

/-- Claim C5 fails on the code: the collation of spontaneous reaches is
not a per-spout partition. With two spouts, a reach on spout 0's touch
pin (27) at time 100 and one on spout 1's touch pin (23) at time 200,
the collated lists are `[[], [100, 200]]`: spout 0's reach lands in
spout 1's list (the comprehension filter is the loop index's
truthiness, `if idx`, not a comparison with the remapped spout tag).
With a single spout every spontaneous reach is dropped entirely. -/
theorem c5_theorem :
    collateSpontReaches [⟨27, [], []⟩, ⟨23, [], []⟩] [27, 23] [100, 200]
      = [[], [100, 200]] ∧
    collateSpontReaches [⟨27, [], []⟩] [27] [100] = [[], []] := by
  decide

/-! ## Claim C6 -/

/-- Claim C6, as stated, is false: with one spout, cue onsets at 10 and
20 and a single touch at 21 (the first trial missed), `reaction_times`
returns `[11] = 21 - 10`, pairing the missed trial's cue onset with the
later trial's touch, where the chronological per-spout matching of the
claim yields `[1] = 21 - 20`. -/
theorem c6_counterexample :
    reaction_times [[21]] [[10, 20]] = [11] ∧
    (11 : Int) = 21 - 10 ∧
    reactionTimesSpec [[21]] [[10, 20]] = [1] ∧
    reaction_times [[21]] [[10, 20]] ≠ reactionTimesSpec [[21]] [[10, 20]] := by
  decide

/-- Claim C6 amended: `reaction_times` concatenates all spouts' touch
lists and all spouts' cue lists and subtracts them elementwise,
truncated at the shorter; this agrees with per-spout pairwise
subtraction exactly when every spout recorded as many touches as cue
onsets, and a missed trial (a cue onset with no touch) shifts the
pairing so that its cue onset is subtracted from a later touch. -/
theorem c6_amended (touch cue : List (List Int))
    (hlen : touch.length = cue.length)
    (hsp : ∀ p ∈ touch.zip cue, p.1.length = p.2.length) :
    reaction_times touch cue = reactionTimesPerSpout touch cue := by
  induction touch generalizing cue with
  | nil =>
    cases cue with
    | nil => rfl
    | cons c cs => simp at hlen
  | cons t ts ih =>
    cases cue with
    | nil => simp at hlen
    | cons c cs =>
      have h1 : t.length = c.length := hsp (t, c) (by simp)
      have h2 := ih cs (by simpa using hlen)
        (fun p hp => hsp p (by simp [hp]))
      simp only [reaction_times, reactionTimesPerSpout, List.flatten_cons,
        List.zip_cons_cons, List.map_cons] at h2 ⊢
      rw [List.zipWith_append _ _ _ _ _ h1, h2]

/-- Witness for the amended C6 at a concrete input: two spouts, each
with as many touches as cues, where the flattened subtraction equals
the per-spout one. -/
theorem c6_witness :
    (([[11], [25, 31]] : List (List Int)).length
      = ([[10], [20, 30]] : List (List Int)).length) ∧
    (∀ p ∈ ([[11], [25, 31]] : List (List Int)).zip [[10], [20, 30]],
      p.1.length = p.2.length) ∧
    reaction_times [[11], [25, 31]] [[10], [20, 30]]
      = reactionTimesPerSpout [[11], [25, 31]] [[10], [20, 30]] :=
  ⟨by decide, by decide, c6_amended _ _ (by decide) (by decide)⟩

/-! ## Claim C8 -/

/-- A broken countdown runs the reset callback and loops. -/
theorem itiLoop_cons_brk (st : ItiState) (r : ItiRound)
    (rs : List ItiRound) (p : Nat) (t : Int) (hb : r.brk = some (p, t)) :
    itiLoop st (r :: rs)
      = itiLoop (resetItiCallback { st with iti_broken := false } p t) rs := by
  simp only [itiLoop, hb]

/-- An unbroken countdown exits the loop with one `disable_sensors`. -/
theorem itiLoop_cons_none (st : ItiState) (r : ItiRound)
    (rs : List ItiRound) (hb : r.brk = none) :
    itiLoop st (r :: rs)
      = some ⟨st.resets_timepoints, 1, r.draw⟩ := by
  simp only [itiLoop, hb]

/-- Unfolding `breaksBefore` over a broken round. -/
theorem breaksBefore_cons_some (paw : Nat) (r : ItiRound)
    (rs : List ItiRound) (p : Nat) (t : Int) (hb : r.brk = some (p, t)) :
    breaksBefore paw (r :: rs)
      = (if p = paw then 1 else 0) + breaksBefore paw rs := by
  simp only [breaksBefore, hb]

/-- Unfolding `breaksBefore` at the first unbroken round. -/
theorem breaksBefore_cons_none (paw : Nat) (r : ItiRound)
    (rs : List ItiRound) (hb : r.brk = none) :
    breaksBefore paw (r :: rs) = 0 := by
  simp only [breaksBefore, hb]

/-- Claim C8 holds: whenever the drawn countdown durations lie in the
configured `[iti_min, iti_max]` range (the guarantee of
`random.uniform`), the ITI exits exactly at the first countdown that
runs to completion with the broken flag never set; the duration used
for that exit is one of the draws (so it is deterministic and equal to
`iti_min` whenever `iti_min = iti_max`); every paw-lift during an
earlier countdown restarted the ITI and appended exactly one timepoint
to the lifting paw's `resets_timepoints` sublist; and
`disable_sensors` runs exactly once, on exit. -/
theorem c8_theorem (iti_min iti_max : Int) (st0 : ItiState)
    (pre : List ItiRound) (good : ItiRound) (rest : List ItiRound)
    (hpre : ∀ r ∈ pre, r.brk ≠ none)
    (hpaw : ∀ r ∈ pre, brkPaw r < st0.resets_timepoints.length)
    (hgood : good.brk = none)
    (hdraws : ∀ r ∈ pre ++ good :: rest,
      iti_min ≤ r.draw ∧ r.draw ≤ iti_max) :
    ∃ out, itiLoop st0 (pre ++ good :: rest) = some out ∧
      out.disableCalls = 1 ∧
      out.finalDraw = good.draw ∧
      (iti_min ≤ out.finalDraw ∧ out.finalDraw ≤ iti_max) ∧
      (iti_min = iti_max → out.finalDraw = iti_min) ∧
      (∀ paw, lenAt out.resets_timepoints paw =
        lenAt st0.resets_timepoints paw
          + breaksBefore paw (pre ++ good :: rest)) := by
  induction pre generalizing st0 with
  | nil =>
    have hbound := hdraws good (by simp)
    refine ⟨⟨st0.resets_timepoints, 1, good.draw⟩, ?_, rfl, rfl,
      hbound, ?_, ?_⟩
    · rw [List.nil_append]
      exact itiLoop_cons_none st0 good rest hgood
    · intro he
      show good.draw = iti_min
      omega
    · intro paw
      rw [List.nil_append, breaksBefore_cons_none paw good rest hgood]
      show lenAt st0.resets_timepoints paw
        = lenAt st0.resets_timepoints paw + 0
      omega
  | cons r pre' ih =>
    obtain ⟨p, t, hbrk⟩ : ∃ p t, r.brk = some (p, t) := by
      cases hb : r.brk with
      | none => exact absurd hb (hpre r (by simp))
      | some pt =>
        obtain ⟨p, t⟩ := pt
        exact ⟨p, t, rfl⟩
    have hp : p < st0.resets_timepoints.length := by
      have := hpaw r (by simp)
      simpa [brkPaw, hbrk] using this
    set st1 := resetItiCallback { st0 with iti_broken := false } p t
      with hst1
    have hres : st1.resets_timepoints = appendAt st0.resets_timepoints p t := by
      rw [hst1]
      rfl
    have hlen1 : st1.resets_timepoints.length
        = st0.resets_timepoints.length := by
      rw [hres, appendAt_length]
    have ih' := ih st1
      (fun r' hr' => hpre r' (List.mem_cons_of_mem r hr'))
      (fun r' hr' => by
        rw [hlen1]
        exact hpaw r' (List.mem_cons_of_mem r hr'))
      (fun r' hr' => hdraws r' (by
        rw [List.cons_append]
        exact List.mem_cons_of_mem r hr'))
    obtain ⟨out, hout, hdis, hdraw, hbounds, hminmax, hcount⟩ := ih'
    refine ⟨out, ?_, hdis, hdraw, hbounds, hminmax, ?_⟩
    · rw [List.cons_append, itiLoop_cons_brk st0 r _ p t hbrk]
      exact hout
    · intro paw
      rw [List.cons_append, breaksBefore_cons_some paw r _ p t hbrk,
        hcount paw, hres, lenAt_appendAt _ _ _ _ hp]
      by_cases hqp : paw = p
      · subst hqp
        rw [if_pos rfl, if_pos rfl]
        omega
      · rw [if_neg hqp, if_neg (fun hpq => hqp hpq.symm)]
        omega

/-- Witness for C8 at a concrete input: `iti = [300, 300]`, a first
countdown broken by the left paw at 50, a second that completes; the
exit uses draw 300 (deterministic since min = max), the left paw's
resets list gained one timepoint, and `disable_sensors` ran once. -/
theorem c8_witness :
    (∀ r ∈ [ItiRound.mk 300 (some (0, 50))], r.brk ≠ none) ∧
    (∀ r ∈ [ItiRound.mk 300 (some (0, 50))],
      brkPaw r < (ItiState.mk [[], []] false).resets_timepoints.length) ∧
    (ItiRound.mk 300 none).brk = none ∧
    (∀ r ∈ [ItiRound.mk 300 (some (0, 50))]
        ++ ItiRound.mk 300 none :: [],
      (300 : Int) ≤ r.draw ∧ r.draw ≤ 300) ∧
    (∃ out, itiLoop (ItiState.mk [[], []] false)
        ([ItiRound.mk 300 (some (0, 50))] ++ ItiRound.mk 300 none :: [])
        = some out ∧
      out.disableCalls = 1 ∧
      out.finalDraw = (ItiRound.mk 300 none).draw ∧
      ((300 : Int) ≤ out.finalDraw ∧ out.finalDraw ≤ 300) ∧
      ((300 : Int) = 300 → out.finalDraw = 300) ∧
      (∀ paw, lenAt out.resets_timepoints paw =
        lenAt (ItiState.mk [[], []] false).resets_timepoints paw
          + breaksBefore paw
              ([ItiRound.mk 300 (some (0, 50))]
                ++ ItiRound.mk 300 none :: []))) :=
  ⟨by decide, by decide, by decide, by decide,
   c8_theorem 300 300 (ItiState.mk [[], []] false)
     [ItiRound.mk 300 (some (0, 50))] (ItiRound.mk 300 none) []
     (by decide) (by decide) (by decide) (by decide)⟩

/-! ## Claims C7 and C10: the trial model -/

/-- Neither grasp callback nor the lift recorder touches the reward
duration or the spout count. -/
theorem fireTrialEvent_fields (st : TrialState) (e : TrialEvent) :
    (fireTrialEvent st e).reward_duration_ms = st.reward_duration_ms ∧
    (fireTrialEvent st e).spout_count = st.spout_count := by
  cases e with
  | touchTarget t =>
    simp only [fireTrialEvent, rewardCallback]
    split <;> exact ⟨rfl, rfl⟩
  | touchOther t =>
    simp only [fireTrialEvent]
    split <;> exact ⟨rfl, rfl⟩
  | pawLift p t => exact ⟨rfl, rfl⟩

/-- One delivered edge leaves the outcome unchanged or assigns 1 or 2. -/
theorem fireTrialEvent_outcome (st : TrialState) (e : TrialEvent) :
    (fireTrialEvent st e).outcome = st.outcome ∨
    (fireTrialEvent st e).outcome = 1 ∨
    (fireTrialEvent st e).outcome = 2 := by
  cases e with
  | touchTarget t => exact Or.inr (Or.inl (rewardCallback_outcome st t))
  | touchOther t =>
    by_cases h : incorrectArmed st.spout_count
    · exact Or.inr (Or.inr (by simp [fireTrialEvent, h, incorrectGraspCallback_outcome]))
    · exact Or.inl (by simp [fireTrialEvent, h])
  | pawLift p t => exact Or.inl rfl

/-- The cue-window events never change the reward duration. -/
theorem foldl_fire_reward_duration (events : List TrialEvent)
    (st : TrialState) :
    (events.foldl fireTrialEvent st).reward_duration_ms
      = st.reward_duration_ms := by
  induction events generalizing st with
  | nil => rfl
  | cons e es ih =>
    rw [List.foldl_cons, ih]
    exact (fireTrialEvent_fields st e).1

/-- The outcome variable only ever holds 0, 1 or 2. -/
theorem foldl_fire_outcome (events : List TrialEvent) (st : TrialState)
    (h : st.outcome = 0 ∨ st.outcome = 1 ∨ st.outcome = 2) :
    (events.foldl fireTrialEvent st).outcome = 0 ∨
    (events.foldl fireTrialEvent st).outcome = 1 ∨
    (events.foldl fireTrialEvent st).outcome = 2 := by
  induction events generalizing st with
  | nil => simpa using h
  | cons e es ih =>
    rw [List.foldl_cons]
    refine ih _ ?_
    rcases fireTrialEvent_outcome st e with h1 | h1 | h1
    · rw [h1]
      exact h
    · rw [h1]
      exact Or.inr (Or.inl rfl)
    · rw [h1]
      exact Or.inr (Or.inr rfl)

/-- With a single spout the incorrect-grasp callback is never armed
(`raspberry.py:247`), so the cue-window events keep the outcome in
{0, 1}. -/
theorem foldl_fire_one_spout (events : List TrialEvent) (st : TrialState)
    (hsp : st.spout_count = 1) (h : st.outcome = 0 ∨ st.outcome = 1) :
    (events.foldl fireTrialEvent st).outcome = 0 ∨
    (events.foldl fireTrialEvent st).outcome = 1 := by
  induction events generalizing st with
  | nil => simpa using h
  | cons e es ih =>
    rw [List.foldl_cons]
    have hsp' : (fireTrialEvent st e).spout_count = 1 := by
      rw [(fireTrialEvent_fields st e).2, hsp]
    refine ih _ hsp' ?_
    cases e with
    | touchTarget t => exact Or.inr (rewardCallback_outcome st t)
    | touchOther t =>
      have harm : incorrectArmed st.spout_count = false := by
        rw [hsp]
        rfl
      simpa [fireTrialEvent, harm] using h
    | pawLift p t => simpa [fireTrialEvent] using h

/-- Claim C7 holds: in every trial the recorded outcome is exactly one
of missed (0), rewarded (1) or incorrect (2) — it is a single variable —
`end_trial` is called exactly once, and the post-trial delay is the
configured reward duration when the outcome is rewarded or incorrect
and zero when it is missed. -/
theorem c7_theorem (st0 : TrialState) (cueTime : Int)
    (events : List TrialEvent) (h0 : st0.outcome = 0) :
    ((trialModel st0 cueTime events).log.count HwCall.endTrial = 1) ∧
    ((trialModel st0 cueTime events).st.outcome = 0 ∨
     (trialModel st0 cueTime events).st.outcome = 1 ∨
     (trialModel st0 cueTime events).st.outcome = 2) ∧
    ((trialModel st0 cueTime events).delay_ms =
      if (trialModel st0 cueTime events).st.outcome = 0 then 0
      else st0.reward_duration_ms) := by
  cases hw : st0.water_at_cue_onset with
  | false =>
    simp only [trialModel, hw, Bool.false_eq_true, if_false]
    have hmem := foldl_fire_outcome events
      { st0 with cue_timepoints :=
          appendAt st0.cue_timepoints st0.current_spout cueTime }
      (Or.inl h0)
    have hrd := foldl_fire_reward_duration events
      { st0 with cue_timepoints :=
          appendAt st0.cue_timepoints st0.current_spout cueTime }
    simp only [hw] at hmem hrd
    rcases hmem with h1 | h1 | h1 <;>
      simp [h1, hrd, List.count_cons, List.count_nil]
  | true =>
    simp only [trialModel, hw, if_true]
    have hmem := foldl_fire_outcome events
      { st0 with
          cue_timepoints :=
            appendAt st0.cue_timepoints st0.current_spout cueTime,
          dispensed :=
            st0.dispensed ++ [(st0.current_spout, st0.reward_duration_ms)] }
      (Or.inl h0)
    have hrd := foldl_fire_reward_duration events
      { st0 with
          cue_timepoints :=
            appendAt st0.cue_timepoints st0.current_spout cueTime,
          dispensed :=
            st0.dispensed ++ [(st0.current_spout, st0.reward_duration_ms)] }
    simp only [hw] at hmem hrd
    rcases hmem with h1 | h1 | h1 <;>
      simp [h1, hrd, List.count_cons, List.count_nil]

/-- Witness for C7 at a concrete input: a fresh trial state, a target
touch during the cue window; the outcome is rewarded, `end_trial` ran
once, and the delay is the reward duration. -/
theorem c7_witness :
    cbTestState.outcome = 0 ∧
    (((trialModel cbTestState 50 [TrialEvent.touchTarget 100]).log.count
        HwCall.endTrial = 1) ∧
     ((trialModel cbTestState 50 [TrialEvent.touchTarget 100]).st.outcome = 0 ∨
      (trialModel cbTestState 50 [TrialEvent.touchTarget 100]).st.outcome = 1 ∨
      (trialModel cbTestState 50 [TrialEvent.touchTarget 100]).st.outcome = 2) ∧
     ((trialModel cbTestState 50 [TrialEvent.touchTarget 100]).delay_ms =
       if (trialModel cbTestState 50 [TrialEvent.touchTarget 100]).st.outcome = 0
       then 0 else cbTestState.reward_duration_ms)) :=
  ⟨by decide, c7_theorem cbTestState 50 [TrialEvent.touchTarget 100] (by decide)⟩

/-- Claim C10 holds: with `spout_count = 1` the physical backend's
`start_trial` never arms the incorrect-grasp callback, so the outcome 2
(incorrect) is unreachable and every trial ends rewarded or missed. -/
theorem c10_theorem (st0 : TrialState) (cueTime : Int)
    (events : List TrialEvent) (h0 : st0.outcome = 0)
    (h1 : st0.spout_count = 1) :
    incorrectArmed st0.spout_count = false ∧
    ((trialModel st0 cueTime events).st.outcome = 0 ∨
     (trialModel st0 cueTime events).st.outcome = 1) ∧
    (trialModel st0 cueTime events).st.outcome ≠ 2 := by
  have harm : incorrectArmed st0.spout_count = false := by
    rw [h1]
    rfl
  cases hw : st0.water_at_cue_onset with
  | false =>
    simp only [trialModel, hw, Bool.false_eq_true, if_false]
    have hmem := foldl_fire_one_spout events
      { st0 with cue_timepoints :=
          appendAt st0.cue_timepoints st0.current_spout cueTime }
      h1 (Or.inl h0)
    simp only [hw] at hmem
    rcases hmem with h2 | h2 <;> simp [harm, h2]
  | true =>
    simp only [trialModel, hw, if_true]
    have hmem := foldl_fire_one_spout events
      { st0 with
          cue_timepoints :=
            appendAt st0.cue_timepoints st0.current_spout cueTime,
          dispensed :=
            st0.dispensed ++ [(st0.current_spout, st0.reward_duration_ms)] }
      h1 (Or.inl h0)
    simp only [hw] at hmem
    rcases hmem with h2 | h2 <;> simp [harm, h2]

/-- Witness for C10 at a concrete input: a single-spout trial where the
other spout's sensor fires anyway — the event is dropped and the trial
is missed, not incorrect. -/
theorem c10_witness :
    oneSpoutState.outcome = 0 ∧ oneSpoutState.spout_count = 1 ∧
    (incorrectArmed oneSpoutState.spout_count = false ∧
     ((trialModel oneSpoutState 50 [TrialEvent.touchOther 200]).st.outcome = 0 ∨
      (trialModel oneSpoutState 50 [TrialEvent.touchOther 200]).st.outcome = 1) ∧
     (trialModel oneSpoutState 50 [TrialEvent.touchOther 200]).st.outcome ≠ 2) :=
  ⟨by decide, by decide,
   c10_theorem oneSpoutState 50 [TrialEvent.touchOther 200] (by decide) (by decide)⟩

/-! ## Claim C9 -/

/-- Claim C9 fails on the code: `RPiReal.cleanup` is not idempotent.
From the initialised two-spout pin state, the first call drives the
solenoids low and uninitialises every pin; the second call errors —
its very first `GPIO.output(spout['solenoid'], False)` hits a channel
no longer set up as an output — although the terminal pin state (all
pins uninitialised, all actuators reading OFF) is unchanged by the
failed second call. -/
theorem c9_theorem :
    rpiCleanup pinSpouts (initialisePins pinSpouts ⟨[], []⟩)
      = .ok ⟨[], []⟩ ∧
    rpiCleanup pinSpouts ⟨[], []⟩ = .error .channelNotSetup ∧
    (∀ sp ∈ pinSpouts,
      modeOf ⟨[], []⟩ sp.solenoid = .uninit ∧
      levelOf ⟨[], []⟩ sp.solenoid = false ∧
      modeOf ⟨[], []⟩ sp.cue = .uninit ∧
      levelOf ⟨[], []⟩ sp.cue = false) :=
  ⟨rfl, rfl, by decide⟩

end Reach
